import Mathlib

/-!
Verification of the aegis-pilot disaster-recovery control plane.

This file shallowly embeds the two core components of the repository —
the failover orchestrator (`lambda-functions/failover-controller/src/lib.rs`)
and the data validator (`lambda-functions/data-validator/src/main.rs`) —
and proves or refutes the frozen specification claims about them.

Modelling conventions:
* AWS calls (health probes, DynamoDB reads/writes, CloudWatch puts) are
  replaced by an explicit environment record supplying their outcomes, and
  the single-slot durable record store is threaded as explicit state.
* Rust `usize` arithmetic is modelled on `Nat` with the wrap-around of a
  64-bit release build made explicit where the source can underflow.
* Rust `f64` arithmetic is idealised as exact rational arithmetic.
-/

namespace FailoverController

/-- The durable failover record written by `update_failover_status`: one
DynamoDB item keyed by `backup_id = "failover_status"` (single slot,
each write overwrites the previous record). -/
structure FailoverRecord where
  backup_id : String
  timestamp : Int
  action : String
  source_region : String
  target_region : String
  status : String
deriving Repr, DecidableEq

/-- `Response` struct of the failover controller (status, message, action,
RFC3339 timestamp), returned from every handled request. -/
structure Response where
  status : String
  message : String
  action : String
  timestamp : String
deriving Repr, DecidableEq

/-- The durable record store: the single `failover_status` slot of the
`dr-backup-metadata` table. -/
structure Store where
  record : Option FailoverRecord
deriving Repr, DecidableEq

/-- Environment of one invocation: outcome of the region health probe
(`check_health`, which never errors — any remote failure is `false`),
whether the DynamoDB `put_item` succeeds, and the clock (integer epoch
seconds plus its RFC3339 rendering). -/
structure Env where
  health : String → Bool
  putOk : Bool
  now : Int
  nowRfc : String

/-- `FailoverService::update_failover_status`: put the single failover-status
item (source lines 72-104).  A failed put propagates as an error and leaves
the store unchanged. -/
def update_failover_status (env : Env) (current_region to_region action : String)
    (st : Store) : Except Unit Unit × Store :=
  if env.putOk then
    (.ok (), ⟨some { backup_id := "failover_status", timestamp := env.now,
                     action := action, source_region := current_region,
                     target_region := to_region, status := "completed" }⟩)
  else
    (.error (), st)

/-- `FailoverService::execute_failover` (source lines 106-146): if not forced
and the target region probe is unhealthy, return a failed response without
touching the store; otherwise write the failover record and report success. -/
def execute_failover (env : Env) (current_region target_region : String)
    (force : Bool) (st : Store) : Except Unit Response × Store :=
  if !force && !(env.health target_region) then
    (.ok { status := "failed",
           message := "Target region " ++ target_region ++ " is not healthy",
           action := "failover", timestamp := env.nowRfc }, st)
  else
    match update_failover_status env current_region target_region "failover" st with
    | (.ok _, st') =>
        (.ok { status := "success",
               message := "Failover to region " ++ target_region ++ " completed",
               action := "failover", timestamp := env.nowRfc }, st')
    | (.error e, st') => (.error e, st')

/-- `FailoverService::execute_failback` (source lines 148-188): same algorithm
as `execute_failover` with the `failback` action tag. -/
def execute_failback (env : Env) (current_region target_region : String)
    (force : Bool) (st : Store) : Except Unit Response × Store :=
  if !force && !(env.health target_region) then
    (.ok { status := "failed",
           message := "Target region " ++ target_region ++ " is not healthy",
           action := "failback", timestamp := env.nowRfc }, st)
  else
    match update_failover_status env current_region target_region "failback" st with
    | (.ok _, st') =>
        (.ok { status := "success",
               message := "Failback to region " ++ target_region ++ " completed",
               action := "failback", timestamp := env.nowRfc }, st')
    | (.error e, st') => (.error e, st')

/-- `FailoverService::handle_request` (source lines 190-210): dispatch on the
action string; anything other than `failover` / `failback` yields a failed
response naming the invalid action and performs no effect. -/
def handle_request (env : Env) (current_region action target_region : String)
    (force : Bool) (st : Store) : Except Unit Response × Store :=
  if action = "failover" then
    execute_failover env current_region target_region force st
  else if action = "failback" then
    execute_failback env current_region target_region force st
  else
    (.ok { status := "failed", message := "Invalid action: " ++ action,
           action := action, timestamp := env.nowRfc }, st)

/-- The one-action algorithm both `execute_failover` and `execute_failback`
instantiate, written out once following the spec's description
("Failover and Failback execute the identical algorithm differing only in
the action tag"): `tag` is the lower-case action tag, `word` the
capitalised word used in the success message. -/
def execute_action_generic (tag word : String) (env : Env)
    (current_region target_region : String) (force : Bool) (st : Store) :
    Except Unit Response × Store :=
  if !force && !(env.health target_region) then
    (.ok { status := "failed",
           message := "Target region " ++ target_region ++ " is not healthy",
           action := tag, timestamp := env.nowRfc }, st)
  else
    match update_failover_status env current_region target_region tag st with
    | (.ok _, st') =>
        (.ok { status := "success",
               message := word ++ " to region " ++ target_region ++ " completed",
               action := tag, timestamp := env.nowRfc }, st')
    | (.error e, st') => (.error e, st')

/-- Concrete environment whose health probe reports every region unhealthy
and whose durable store accepts writes. -/
def envUnhealthy : Env :=
  { health := fun _ => false, putOk := true, now := 0,
    nowRfc := "1970-01-01T00:00:00+00:00" }

end FailoverController

namespace DataValidator

/-- `ValidationMode` enum of the data validator. -/
inductive ValidationMode
  | full
  | incremental
  | specific
deriving Repr, DecidableEq

/-- `ActionType` enum of the data validator. -/
inductive ActionType
  | validate
  | sync
deriving Repr, DecidableEq

/-- `ValidationStatus` enum; `failed` exists in the taxonomy but the scoring
algorithm only ever produces `healthy` / `degraded`. -/
inductive ValidationStatus
  | healthy
  | degraded
  | failed
deriving Repr, DecidableEq

/-- `BackupStatus` struct: optional fields are absent when no backups exist.
`f64` ages are idealised as rationals. -/
structure BackupStatus where
  last_backup_age_hours : Option ℚ
  backup_count : Nat
  oldest_backup_days : Option ℚ
deriving Repr, DecidableEq

/-- `ValidationResults` struct of the aggregated report. -/
structure ValidationResults where
  tables_validated : Nat
  records_checked : Nat
  mismatches_found : Nat
  replication_lag_seconds : Option Int
  backup_status : BackupStatus
  consistency_score : ℚ
deriving Repr, DecidableEq

/-- `TableValidation`: the per-table sample produced by
`validate_table_data` (table names are plain strings — the Rust `TableName`
is a newtype over `String`). -/
structure TableValidation where
  table_name : String
  primary_count : Nat
  dr_count : Nat
  sample_mismatches : List String
deriving Repr, DecidableEq

/-- `ValidationResponse` struct (timestamp as integer epoch seconds). -/
structure ValidationResponse where
  status : ValidationStatus
  validation_mode : ValidationMode
  timestamp : Int
  results : ValidationResults
  recommendations : List String
deriving Repr, DecidableEq

/-- Modulus of Rust `usize` arithmetic on the 64-bit Lambda target. -/
def USIZE : Nat := 2 ^ 64

/-- Rust `usize` addition (wraps modulo `2^64`). -/
def usizeAdd (a b : Nat) : Nat := (a + b) % USIZE

/-- Rust `usize` subtraction of a release build: two's-complement wrap-around
modulo `2^64` on underflow (a debug build would panic instead).  `a` is a
`usize` value, i.e. `a < 2^64`. -/
def usizeSub (a b : Nat) : Nat := (a + (USIZE - b % USIZE)) % USIZE

/-- Per-table mismatch count used by the aggregation loop:
`primary_count.abs_diff(dr_count) + sample_mismatches.len()`
(source lines 547-548). -/
def mismatchCount (v : TableValidation) : Nat :=
  (if v.primary_count ≥ v.dr_count then v.primary_count - v.dr_count
   else v.dr_count - v.primary_count) + v.sample_mismatches.length

/-- `DataValidatorService::sync_missing_items` (source lines 392-414): when
the primary count exceeds the DR count, report that difference as the number
of items that would be synced; otherwise report 0.  (No data is copied.) -/
def sync_missing_items (validation : TableValidation) : Nat :=
  if validation.primary_count > validation.dr_count then
    validation.primary_count - validation.dr_count
  else 0

/-- The per-table aggregation loop of `run_validation` (source lines
543-563): `table_data` gives the outcome of `validate_table_data` for each
table; a failed table is logged and skipped, a successful one adds its
`primary_count` to the record total and its `mismatchCount` to the mismatch
total and is collected in order.  Returns
(total_records, total_mismatches, validations). -/
def aggregateTables (table_data : String → Except Unit TableValidation) :
    List String → Nat × Nat × List TableValidation
  | [] => (0, 0, [])
  | t :: ts =>
    let rest := aggregateTables table_data ts
    match table_data t with
    | .ok v =>
        (usizeAdd v.primary_count rest.1, usizeAdd (mismatchCount v) rest.2.1,
         v :: rest.2.2)
    | .error _ => rest

/-- The consistency-score computation of `run_validation` (source lines
576-580): `(total_records - total_mismatches) as f64 / total_records as f64
* 100.0` when any records were checked, else `100.0`.  The `usize`
subtraction is unchecked, hence `usizeSub`; the `f64` arithmetic is
idealised as exact rational arithmetic. -/
def consistencyScore (total_records total_mismatches : Nat) : ℚ :=
  if total_records > 0 then
    ((usizeSub total_records total_mismatches : ℚ) / (total_records : ℚ)) * 100
  else 100

/-- One-decimal rendering of a rational, modelling the one-decimal float
format used in the recommendation messages.  (The exact digits never matter
to any claim; only that the surrounding message text is fixed.) -/
def fmtQ1 (q : ℚ) : String :=
  let n : Int := round (q * 10)
  let sign := if n < 0 then "-" else ""
  sign ++ toString (n.natAbs / 10) ++ "." ++ toString (n.natAbs % 10)

/-- Zero-decimal rendering of a rational, modelling the zero-decimal float
format used in the retention-policy message. -/
def fmtQ0 (q : ℚ) : String := toString (round q : Int)

/-- Message pushed when the consistency score is below 95
(the score is rendered with one decimal place). -/
def lowConsistencyMsg (score : ℚ) : String :=
  "Data consistency is below 95% (" ++ fmtQ1 score ++
    "%). Investigate mismatches immediately."

/-- Message pushed when replication lag exceeds 60 seconds. -/
def highLagMsg (lag : Int) : String :=
  "Replication lag is " ++ toString lag ++
    " seconds. Consider investigating DynamoDB Global Tables health."

/-- Message pushed when the last backup is older than 24 hours. -/
def oldBackupMsg (age_hours : ℚ) : String :=
  "Last backup is " ++ fmtQ1 age_hours ++
    " hours old. Consider running a manual backup."

/-- Message pushed when the oldest backup is older than 30 days. -/
def oldestBackupMsg (oldest_days : ℚ) : String :=
  "Oldest backup is " ++ fmtQ0 oldest_days ++
    " days old. Consider reviewing retention policy."

/-- The all-clear message emitted when no threshold rule fired. -/
def allClearMsg : String := "All validation checks passed. System is healthy."

/-- `DataValidatorService::generate_recommendations` (source lines 478-520):
four independent threshold rules evaluated in a fixed order, each appending
its message; a single all-clear message when none fired. -/
def generate_recommendations (results : ValidationResults) : List String :=
  let recs : List String := []
  let recs := if results.consistency_score < 95 then
      recs ++ [lowConsistencyMsg results.consistency_score] else recs
  let recs := match results.replication_lag_seconds with
    | some lag => if 60 < lag then recs ++ [highLagMsg lag] else recs
    | none => recs
  let recs := match results.backup_status.last_backup_age_hours with
    | some age_hours =>
        if 24 < age_hours then recs ++ [oldBackupMsg age_hours] else recs
    | none => recs
  let recs := match results.backup_status.oldest_backup_days with
    | some oldest_days =>
        if 30 < oldest_days then recs ++ [oldestBackupMsg oldest_days] else recs
    | none => recs
  if recs = [] then [allClearMsg] else recs

/-- The default table set of `run_validation`. -/
def default_tables : List String := ["dr-application-table", "dr-sentinel-table"]

/-- Table selection of `run_validation` (source lines 535-537): a requested
table alone, otherwise the default set. -/
def tablesToValidate (table_name : Option String) : List String :=
  (table_name.map fun name => [name]).getD default_tables

/-- Environment of one validation run: the outcome of `validate_table_data`
per table, of `check_replication_lag` and of `validate_backups`, plus the
clock. -/
structure ValidatorEnv where
  table_data : String → Except Unit TableValidation
  lag : Except Unit (Option Int)
  backups : Except Unit BackupStatus
  now : Int

/-- `DataValidatorService::run_validation` (source lines 529-624): aggregate
the selected tables (skipping failed ones), resolve lag and backup status
(both soft failures fall back to defaults), compute the consistency score,
derive the status and the recommendations, and build the response.  The
`action` parameter only triggers the sync report path, which is logged and
does not affect the response. -/
def run_validation (env : ValidatorEnv) (validation_mode : ValidationMode)
    (table_name : Option String) (_action : ActionType) : ValidationResponse :=
  let agg := aggregateTables env.table_data (tablesToValidate table_name)
  let total_records := agg.1
  let total_mismatches := agg.2.1
  let validations := agg.2.2
  let replication_lag := match env.lag with
    | .ok l => l
    | .error _ => none
  let backup_status := match env.backups with
    | .ok b => b
    | .error _ =>
        { last_backup_age_hours := none, backup_count := 0,
          oldest_backup_days := none }
  let results : ValidationResults :=
    { tables_validated := validations.length,
      records_checked := total_records,
      mismatches_found := total_mismatches,
      replication_lag_seconds := replication_lag,
      backup_status := backup_status,
      consistency_score := consistencyScore total_records total_mismatches }
  let recommendations := generate_recommendations results
  let status := if results.consistency_score ≥ 95 then ValidationStatus.healthy
    else ValidationStatus.degraded
  { status := status, validation_mode := validation_mode, timestamp := env.now,
    results := results, recommendations := recommendations }

/-- Default backup status used when the backup scan fails. -/
def emptyBackupStatus : BackupStatus :=
  { last_backup_age_hours := none, backup_count := 0, oldest_backup_days := none }

/-- Concrete run environment A: the single table `users` validates with
primary count 1, DR count 11 and no sampled mismatches (e.g. deletes on the
primary not yet replicated), so the mismatch count 10 exceeds the 1 record
checked and the unchecked subtraction wraps. -/
def cxEnvA : ValidatorEnv :=
  { table_data := fun t =>
      if t = "users" then
        .ok { table_name := "users", primary_count := 1, dr_count := 11,
              sample_mismatches := [] }
      else .error (),
    lag := .ok none, backups := .ok emptyBackupStatus, now := 0 }

/-- Concrete run environment B: the single table `orders` validates with
primary count 1, DR count 10 and no sampled mismatches, so 9 mismatches are
counted against 1 record checked. -/
def cxEnvB : ValidatorEnv :=
  { table_data := fun t =>
      if t = "orders" then
        .ok { table_name := "orders", primary_count := 1, dr_count := 10,
              sample_mismatches := [] }
      else .error (),
    lag := .ok none, backups := .ok emptyBackupStatus, now := 0 }

/-- The list contributed by the low-consistency rule alone. -/
def rec1 (r : ValidationResults) : List String :=
  if r.consistency_score < 95 then [lowConsistencyMsg r.consistency_score] else []

/-- The list contributed by the replication-lag rule alone. -/
def rec2 (r : ValidationResults) : List String :=
  match r.replication_lag_seconds with
  | some lag => if 60 < lag then [highLagMsg lag] else []
  | none => []

/-- The list contributed by the backup-age rule alone. -/
def rec3 (r : ValidationResults) : List String :=
  match r.backup_status.last_backup_age_hours with
  | some age_hours => if 24 < age_hours then [oldBackupMsg age_hours] else []
  | none => []

/-- The list contributed by the retention rule alone. -/
def rec4 (r : ValidationResults) : List String :=
  match r.backup_status.oldest_backup_days with
  | some oldest_days => if 30 < oldest_days then [oldestBackupMsg oldest_days] else []
  | none => []

/-- Concrete run environment C: the single table `inventory` validates with
primary count 100, DR count 90 and two sampled mismatches, giving 12
mismatches against 100 records. -/
def cxEnvC : ValidatorEnv :=
  { table_data := fun t =>
      if t = "inventory" then
        .ok { table_name := "inventory", primary_count := 100, dr_count := 90,
              sample_mismatches := ["Item a not found in DR",
                                    "Item b not found in DR"] }
      else .error (),
    lag := .ok (some 5), backups := .ok emptyBackupStatus, now := 0 }

/-- Concrete run environment D: every table fails to validate, so no records
are checked at all. -/
def cxEnvD : ValidatorEnv :=
  { table_data := fun _ => .error (),
    lag := .ok none, backups := .ok emptyBackupStatus, now := 0 }

/-- Concrete table validation with a positive count delta, for the sync
witness. -/
def vSync : TableValidation :=
  { table_name := "dr-application-table", primary_count := 5, dr_count := 3,
    sample_mismatches := [] }

end DataValidator

namespace FailoverController

theorem target_msg_split (t : String) :
    "Target region " ++ t ++ " is not healthy" =
      ("Target region " ++ t ++ " is ") ++ "not healthy" ++ "" := by
  rw [String.append_empty, String.append_assoc ("Target region " ++ t) " is " "not healthy"]
  rfl

/-- Claim C1 -/
theorem health_gate (env : Env) (cur target act : String) (st : Store)
    (hact : act = "failover" ∨ act = "failback")
    (hun : env.health target = false) :
    (∃ resp, (handle_request env cur act target false st).1 = .ok resp ∧
       resp.status = "failed" ∧
       ∃ a b, resp.message = a ++ "not healthy" ++ b) ∧
    (handle_request env cur act target false st).2 = st ∧
    (∀ env2 : Env, env2.putOk = true →
       (handle_request env2 cur act target true st).2.record =
         some { backup_id := "failover_status", timestamp := env2.now,
                action := act, source_region := cur, target_region := target,
                status := "completed" }) := by
  rcases hact with h | h <;> subst h
  · refine ⟨⟨Response.mk "failed"
        ("Target region " ++ target ++ " is not healthy")
        "failover" env.nowRfc, ?_, rfl,
        "Target region " ++ target ++ " is ", "", target_msg_split target⟩,
      ?_, fun env2 h2 => ?_⟩
    · simp [handle_request, execute_failover, hun]
    · simp [handle_request, execute_failover, hun]
    · simp [handle_request, execute_failover, update_failover_status, h2]
  · refine ⟨⟨Response.mk "failed"
        ("Target region " ++ target ++ " is not healthy")
        "failback" env.nowRfc, ?_, rfl,
        "Target region " ++ target ++ " is ", "", target_msg_split target⟩,
      ?_, fun env2 h2 => ?_⟩
    · simp [handle_request, execute_failback, hun]
    · simp [handle_request, execute_failback, hun]
    · simp [handle_request, execute_failback, update_failover_status, h2]

/-- Claim C5 -/
theorem invalid_action_no_op (env : Env) (cur act target : String) (force : Bool)
    (st : Store) (h1 : act ≠ "failover") (h2 : act ≠ "failback") :
    handle_request env cur act target force st =
      (.ok { status := "failed", message := "Invalid action: " ++ act,
             action := act, timestamp := env.nowRfc }, st) ∧
    (∃ a b, ("Invalid action: " ++ act : String) = a ++ act ++ b) ∧
    ∀ pr : String → Bool,
      handle_request { env with health := pr } cur act target force st =
        handle_request env cur act target force st := by
  refine ⟨by simp [handle_request, h1, h2], ⟨"Invalid action: ", "", ?_⟩,
    fun pr => by simp [handle_request, h1, h2]⟩
  rw [String.append_empty]

/-- Claim C9 -/
theorem failback_mirrors_failover (env : Env) (cur target : String) (force : Bool)
    (st : Store) :
    execute_failover env cur target force st =
      execute_action_generic "failover" "Failover" env cur target force st ∧
    execute_failback env cur target force st =
      execute_action_generic "failback" "Failback" env cur target force st ∧
    (execute_failback env cur target force st).1.toOption.map Response.status =
      (execute_failover env cur target force st).1.toOption.map Response.status ∧
    (execute_failback env cur target force st).1.toOption.map Response.timestamp =
      (execute_failover env cur target force st).1.toOption.map Response.timestamp ∧
    ((execute_failback env cur target force st).1.toOption.map Response.message =
       (execute_failover env cur target force st).1.toOption.map Response.message ∨
     ((execute_failover env cur target force st).1.toOption.map Response.message =
        some ("Failover to region " ++ target ++ " completed") ∧
      (execute_failback env cur target force st).1.toOption.map Response.message =
        some ("Failback to region " ++ target ++ " completed"))) ∧
    (((execute_failover env cur target force st).2 = st ∧
      (execute_failback env cur target force st).2 = st) ∨
     (∃ r : FailoverRecord,
        (execute_failover env cur target force st).2.record = some r ∧
        r.action = "failover" ∧
        (execute_failback env cur target force st).2.record =
          some { r with action := "failback" })) := by
  refine ⟨rfl, rfl, ?_⟩
  cases force <;> cases hh : env.health target <;> cases hp : env.putOk <;>
    simp [execute_failover, execute_failback, update_failover_status, hh, hp,
      Except.toOption]

end FailoverController

namespace FailoverController

/-- Witness for C1 at a concrete unhealthy environment. -/
theorem health_gate_wit :
    (∃ resp, (handle_request envUnhealthy "us-east-1" "failover" "us-west-2" false ⟨none⟩).1 = .ok resp ∧
       resp.status = "failed" ∧
       ∃ a b, resp.message = a ++ "not healthy" ++ b) ∧
    (handle_request envUnhealthy "us-east-1" "failover" "us-west-2" false ⟨none⟩).2 = ⟨none⟩ ∧
    (∀ env2 : Env, env2.putOk = true →
       (handle_request env2 "us-east-1" "failover" "us-west-2" true ⟨none⟩).2.record =
         some { backup_id := "failover_status", timestamp := env2.now,
                action := "failover", source_region := "us-east-1",
                target_region := "us-west-2", status := "completed" }) :=
  health_gate envUnhealthy "us-east-1" "us-west-2" "failover" ⟨none⟩ (Or.inl rfl) rfl

/-- Witness for C5 at the concrete invalid action `rollback`. -/
theorem invalid_action_no_op_wit :
    handle_request envUnhealthy "us-east-1" "rollback" "us-west-2" false ⟨none⟩ =
      (.ok { status := "failed", message := "Invalid action: " ++ "rollback",
             action := "rollback", timestamp := envUnhealthy.nowRfc }, ⟨none⟩) ∧
    (∃ a b, ("Invalid action: " ++ "rollback" : String) = a ++ "rollback" ++ b) ∧
    ∀ pr : String → Bool,
      handle_request { envUnhealthy with health := pr } "us-east-1" "rollback"
          "us-west-2" false ⟨none⟩ =
        handle_request envUnhealthy "us-east-1" "rollback" "us-west-2" false ⟨none⟩ :=
  invalid_action_no_op envUnhealthy "us-east-1" "rollback" "us-west-2" false ⟨none⟩
    (by decide) (by decide)

end FailoverController

namespace DataValidator

theorem usize_pos : 0 < USIZE := by norm_num [USIZE]

theorem usizeSub_eq_sub (a b : Nat) (hba : b ≤ a) (ha : a < USIZE) :
    usizeSub a b = a - b := by
  have hW : USIZE = 18446744073709551616 := by norm_num [USIZE]
  simp only [usizeSub, hW] at *
  omega

theorem aggregate_lt (f : String → Except Unit TableValidation) (ts : List String) :
    (aggregateTables f ts).1 < USIZE ∧ (aggregateTables f ts).2.1 < USIZE := by
  induction ts with
  | nil => exact ⟨usize_pos, usize_pos⟩
  | cons a ts ih =>
    cases hfa : f a with
    | ok v =>
      simp only [aggregateTables, hfa]
      exact ⟨Nat.mod_lt _ usize_pos, Nat.mod_lt _ usize_pos⟩
    | error e =>
      simp only [aggregateTables, hfa]
      exact ih

theorem consistencyScore_nonneg (r m : Nat) : 0 ≤ consistencyScore r m := by
  unfold consistencyScore
  split
  · positivity
  · norm_num

theorem consistencyScore_le_100 (r m : Nat) (hmr : m ≤ r) (hr : r < USIZE) :
    consistencyScore r m ≤ 100 := by
  unfold consistencyScore
  split
  · rename_i hpos
    rw [usizeSub_eq_sub r m hmr hr]
    have hrq : (0:ℚ) < (r:ℚ) := by exact_mod_cast hpos
    have hle : ((r - m : ℕ):ℚ) ≤ (r:ℚ) := by exact_mod_cast Nat.sub_le r m
    calc ((r - m : ℕ):ℚ) / (r:ℚ) * 100 ≤ (r:ℚ) / (r:ℚ) * 100 := by gcongr
      _ = 100 := by field_simp
  · norm_num

theorem consistencyScore_eq_formula (r m : Nat) (hpos : 0 < r) (hmr : m ≤ r)
    (hr : r < USIZE) :
    consistencyScore r m = 100 * ((r:ℚ) - (m:ℚ)) / (r:ℚ) := by
  unfold consistencyScore
  rw [if_pos hpos, usizeSub_eq_sub r m hmr hr]
  rw [Nat.cast_sub hmr]
  ring

theorem consistencyScore_anti (r m1 m2 : Nat) (hpos : 0 < r) (hr : r < USIZE)
    (h12 : m1 ≤ m2) (h2r : m2 ≤ r) :
    consistencyScore r m2 ≤ consistencyScore r m1 := by
  unfold consistencyScore
  rw [if_pos hpos, if_pos hpos, usizeSub_eq_sub r m2 h2r hr,
    usizeSub_eq_sub r m1 (le_trans h12 h2r) hr]
  have hrq : (0:ℚ) < (r:ℚ) := by exact_mod_cast hpos
  have hsub : ((r - m2 : ℕ):ℚ) ≤ ((r - m1 : ℕ):ℚ) := by
    exact_mod_cast Nat.sub_le_sub_left h12 r
  gcongr

end DataValidator

namespace DataValidator

/-- Claim C2 amended -/
theorem score_bounds (env : ValidatorEnv) (mode : ValidationMode)
    (tbl : Option String) (act : ActionType)
    (hle : (run_validation env mode tbl act).results.mismatches_found ≤
      (run_validation env mode tbl act).results.records_checked) :
    0 ≤ (run_validation env mode tbl act).results.consistency_score ∧
    (run_validation env mode tbl act).results.consistency_score ≤ 100 := by
  constructor
  · exact consistencyScore_nonneg _ _
  · have hlt := aggregate_lt env.table_data (tablesToValidate tbl)
    exact consistencyScore_le_100 _ _ hle hlt.1

/-- Claim C2 counterexample -/
theorem score_above_100 :
    100 < (run_validation cxEnvA .incremental (some "users") .validate).results.consistency_score := by
  have hs : (run_validation cxEnvA .incremental (some "users") .validate).results.consistency_score
      = consistencyScore 1 10 := rfl
  rw [hs]
  have hu : usizeSub 1 10 = 18446744073709551607 := by decide
  simp only [consistencyScore, hu]
  norm_num

/-- Claim C3 amended -/
theorem score_formula (env : ValidatorEnv) (mode : ValidationMode)
    (tbl : Option String) (act : ActionType) :
    ((run_validation env mode tbl act).results.records_checked = 0 →
       (run_validation env mode tbl act).results.consistency_score = 100 ∧
       (run_validation env mode tbl act).status = .healthy) ∧
    (0 < (run_validation env mode tbl act).results.records_checked →
     (run_validation env mode tbl act).results.mismatches_found ≤
       (run_validation env mode tbl act).results.records_checked →
       (run_validation env mode tbl act).results.consistency_score =
         100 * (((run_validation env mode tbl act).results.records_checked : ℚ) -
                ((run_validation env mode tbl act).results.mismatches_found : ℚ)) /
           ((run_validation env mode tbl act).results.records_checked : ℚ)) := by
  have hlt := aggregate_lt env.table_data (tablesToValidate tbl)
  constructor
  · intro h0
    have hsc : (run_validation env mode tbl act).results.consistency_score =
        consistencyScore (run_validation env mode tbl act).results.records_checked
          (run_validation env mode tbl act).results.mismatches_found := rfl
    have hst : (run_validation env mode tbl act).status =
        (if (run_validation env mode tbl act).results.consistency_score ≥ 95
         then ValidationStatus.healthy else ValidationStatus.degraded) := rfl
    rw [hsc, h0]
    have h100 : consistencyScore 0 (run_validation env mode tbl act).results.mismatches_found = 100 := by
      simp [consistencyScore]
    refine ⟨h100, ?_⟩
    rw [hst, hsc, h0, h100]
    norm_num
  · intro hpos hle
    exact consistencyScore_eq_formula _ _ hpos hle hlt.1

/-- Claim C3 counterexample -/
theorem score_formula_fails :
    0 < (run_validation cxEnvB .incremental (some "orders") .validate).results.records_checked ∧
    (run_validation cxEnvB .incremental (some "orders") .validate).results.records_checked = 1 ∧
    (run_validation cxEnvB .incremental (some "orders") .validate).results.mismatches_found = 9 ∧
    (run_validation cxEnvB .incremental (some "orders") .validate).results.consistency_score ≠
      100 * (((run_validation cxEnvB .incremental (some "orders") .validate).results.records_checked : ℚ) -
             ((run_validation cxEnvB .incremental (some "orders") .validate).results.mismatches_found : ℚ)) /
        ((run_validation cxEnvB .incremental (some "orders") .validate).results.records_checked : ℚ) := by
  refine ⟨by decide, rfl, rfl, ?_⟩
  have hs : (run_validation cxEnvB .incremental (some "orders") .validate).results.consistency_score
      = consistencyScore 1 9 := rfl
  have hr : (run_validation cxEnvB .incremental (some "orders") .validate).results.records_checked = 1 := rfl
  have hm : (run_validation cxEnvB .incremental (some "orders") .validate).results.mismatches_found = 9 := rfl
  rw [hs, hr, hm]
  have hu : usizeSub 1 9 = 18446744073709551608 := by decide
  simp only [consistencyScore, hu]
  norm_num

/-- Claim C4 -/
theorem status_iff_score (env : ValidatorEnv) (mode : ValidationMode)
    (tbl : Option String) (act : ActionType) :
    ((run_validation env mode tbl act).status = .healthy ↔
      95 ≤ (run_validation env mode tbl act).results.consistency_score) ∧
    ((run_validation env mode tbl act).status = .degraded ↔
      (run_validation env mode tbl act).results.consistency_score < 95) ∧
    (run_validation env mode tbl act).status ≠ .failed := by
  have hst : (run_validation env mode tbl act).status =
      (if (run_validation env mode tbl act).results.consistency_score ≥ 95
       then ValidationStatus.healthy else ValidationStatus.degraded) := rfl
  rw [hst]
  by_cases h : 95 ≤ (run_validation env mode tbl act).results.consistency_score
  · rw [if_pos h]
    refine ⟨by simp [h], ?_, by simp⟩
    simp [not_lt.mpr h]
  · rw [if_neg h]
    refine ⟨by simp [h], ?_, by simp⟩
    simp [not_le.mp h]

/-- Claim C7 amended -/
theorem score_monotone (r m1 m2 : Nat) (hr : 0 < r) (hrW : r < USIZE)
    (h12 : m1 ≤ m2) (h2r : m2 ≤ r) :
    consistencyScore r m2 ≤ consistencyScore r m1 :=
  consistencyScore_anti r m1 m2 hr hrW h12 h2r

/-- Claim C7 counterexample -/
theorem score_not_monotone :
    (0:Nat) < 1 ∧ (1:Nat) ≤ 2 ∧ consistencyScore 1 1 < consistencyScore 1 2 := by
  refine ⟨by decide, by decide, ?_⟩
  have h1 : usizeSub 1 1 = 0 := by decide
  have h2 : usizeSub 1 2 = 18446744073709551615 := by decide
  simp only [consistencyScore, h1, h2]
  norm_num

end DataValidator

namespace DataValidator

/-- Witness for the amended C2 at environment C (12 mismatches, 100 records). -/
theorem score_bounds_wit :
    (run_validation cxEnvC .full (some "inventory") .validate).results.mismatches_found ≤
      (run_validation cxEnvC .full (some "inventory") .validate).results.records_checked ∧
    (0 ≤ (run_validation cxEnvC .full (some "inventory") .validate).results.consistency_score ∧
     (run_validation cxEnvC .full (some "inventory") .validate).results.consistency_score ≤ 100) :=
  ⟨by decide, score_bounds cxEnvC .full (some "inventory") .validate (by decide)⟩

/-- Witness for the amended C3 at environments D (no records) and C
(12 mismatches over 100 records). -/
theorem score_formula_wit :
    ((run_validation cxEnvD .full none .validate).results.records_checked = 0 ∧
     ((run_validation cxEnvD .full none .validate).results.consistency_score = 100 ∧
      (run_validation cxEnvD .full none .validate).status = .healthy)) ∧
    (0 < (run_validation cxEnvC .full (some "inventory") .validate).results.records_checked ∧
     (run_validation cxEnvC .full (some "inventory") .validate).results.mismatches_found ≤
       (run_validation cxEnvC .full (some "inventory") .validate).results.records_checked ∧
     (run_validation cxEnvC .full (some "inventory") .validate).results.consistency_score =
       100 * (((run_validation cxEnvC .full (some "inventory") .validate).results.records_checked : ℚ) -
              ((run_validation cxEnvC .full (some "inventory") .validate).results.mismatches_found : ℚ)) /
         ((run_validation cxEnvC .full (some "inventory") .validate).results.records_checked : ℚ)) :=
  ⟨⟨rfl, (score_formula cxEnvD .full none .validate).1 rfl⟩,
   ⟨by decide, by decide,
    (score_formula cxEnvC .full (some "inventory") .validate).2 (by decide) (by decide)⟩⟩

/-- Witness for the amended C7 at records 100, mismatches 5 and 12. -/
theorem score_monotone_wit :
    (0:Nat) < 100 ∧ 100 < USIZE ∧ (5:Nat) ≤ 12 ∧ (12:Nat) ≤ 100 ∧
    consistencyScore 100 12 ≤ consistencyScore 100 5 :=
  ⟨by decide, by decide, by decide, by decide,
   score_monotone 100 5 12 (by decide) (by decide) (by decide) (by decide)⟩

end DataValidator

namespace DataValidator

theorem lowConsistencyMsg_ne (s : ℚ) : lowConsistencyMsg s ≠ allClearMsg := by
  intro h
  have h1 : (lowConsistencyMsg s).data.head? = some 'D' := rfl
  rw [h] at h1
  exact absurd h1 (by decide)

theorem highLagMsg_ne (lag : Int) : highLagMsg lag ≠ allClearMsg := by
  intro h
  have h1 : (highLagMsg lag).data.head? = some 'R' := rfl
  rw [h] at h1
  exact absurd h1 (by decide)

theorem oldBackupMsg_ne (q : ℚ) : oldBackupMsg q ≠ allClearMsg := by
  intro h
  have h1 : (oldBackupMsg q).data.head? = some 'L' := rfl
  rw [h] at h1
  exact absurd h1 (by decide)

theorem oldestBackupMsg_ne (q : ℚ) : oldestBackupMsg q ≠ allClearMsg := by
  intro h
  have h1 : (oldestBackupMsg q).data.head? = some 'O' := rfl
  rw [h] at h1
  exact absurd h1 (by decide)

theorem push_ite (c : Prop) [Decidable c] (recs m1 : List String) :
    (if c then recs ++ m1 else recs) = recs ++ (if c then m1 else []) := by
  split <;> simp

theorem gen_rec_eq (r : ValidationResults) :
    generate_recommendations r =
      (if rec1 r ++ rec2 r ++ rec3 r ++ rec4 r = [] then [allClearMsg]
       else rec1 r ++ rec2 r ++ rec3 r ++ rec4 r) := by
  unfold generate_recommendations rec1 rec2 rec3 rec4
  rcases r.replication_lag_seconds with _ | lag <;>
    rcases r.backup_status.last_backup_age_hours with _ | age <;>
    rcases r.backup_status.oldest_backup_days with _ | od <;>
    simp only [push_ite, List.append_assoc, List.nil_append, List.append_nil] <;>
    split_ifs <;> simp_all [List.append_assoc]

theorem rec1_nil (r : ValidationResults) :
    rec1 r = [] ↔ ¬ r.consistency_score < 95 := by
  unfold rec1
  split_ifs with h <;> simp [h]

theorem rec2_nil (r : ValidationResults) :
    rec2 r = [] ↔ ¬ ∃ lag, r.replication_lag_seconds = some lag ∧ 60 < lag := by
  unfold rec2
  rcases r.replication_lag_seconds with _ | lag
  · simp
  · simp only [Option.some.injEq]
    split_ifs with h <;> simp [h]

theorem rec3_nil (r : ValidationResults) :
    rec3 r = [] ↔
      ¬ ∃ age_hours, r.backup_status.last_backup_age_hours = some age_hours ∧
          24 < age_hours := by
  unfold rec3
  rcases r.backup_status.last_backup_age_hours with _ | age
  · simp
  · simp only [Option.some.injEq]
    split_ifs with h <;> simp [h]

theorem rec4_nil (r : ValidationResults) :
    rec4 r = [] ↔
      ¬ ∃ oldest_days, r.backup_status.oldest_backup_days = some oldest_days ∧
          30 < oldest_days := by
  unfold rec4
  rcases r.backup_status.oldest_backup_days with _ | od
  · simp
  · simp only [Option.some.injEq]
    split_ifs with h <;> simp [h]

theorem allClear_not_mem (r : ValidationResults) :
    allClearMsg ∉ rec1 r ++ rec2 r ++ rec3 r ++ rec4 r := by
  intro hm
  rcases List.mem_append.mp hm with hm | hm4
  rcases List.mem_append.mp hm with hm | hm3
  rcases List.mem_append.mp hm with hm1 | hm2
  · unfold rec1 at hm1
    split_ifs at hm1 with h
    · exact lowConsistencyMsg_ne _ (List.mem_singleton.mp hm1).symm
    · simp at hm1
  · unfold rec2 at hm2
    rcases hl : r.replication_lag_seconds with _ | lag <;> rw [hl] at hm2
    · simp at hm2
    · by_cases h : 60 < lag
      · simp [h] at hm2
        exact highLagMsg_ne _ hm2.symm
      · simp [h] at hm2
  · unfold rec3 at hm3
    rcases ha : r.backup_status.last_backup_age_hours with _ | age <;> rw [ha] at hm3
    · simp at hm3
    · by_cases h : 24 < age
      · simp [h] at hm3
        exact oldBackupMsg_ne _ hm3.symm
      · simp [h] at hm3
  · unfold rec4 at hm4
    rcases ho : r.backup_status.oldest_backup_days with _ | od <;> rw [ho] at hm4
    · simp at hm4
    · by_cases h : 30 < od
      · simp [h] at hm4
        exact oldestBackupMsg_ne _ hm4.symm
      · simp [h] at hm4

end DataValidator

namespace DataValidator

theorem fired_nil_iff (r : ValidationResults) :
    rec1 r ++ rec2 r ++ rec3 r ++ rec4 r = [] ↔
      ¬(r.consistency_score < 95 ∨
        (∃ lag, r.replication_lag_seconds = some lag ∧ 60 < lag) ∨
        (∃ age_hours, r.backup_status.last_backup_age_hours = some age_hours ∧
           24 < age_hours) ∨
        (∃ oldest_days, r.backup_status.oldest_backup_days = some oldest_days ∧
           30 < oldest_days)) := by
  simp only [List.append_eq_nil, rec1_nil, rec2_nil, rec3_nil, rec4_nil]
  push_neg
  tauto

/-- Claim C6 -/
theorem recommendations_spec (r : ValidationResults) :
    generate_recommendations r ≠ [] ∧
    (generate_recommendations r = [allClearMsg] ↔
      ¬(r.consistency_score < 95 ∨
        (∃ lag, r.replication_lag_seconds = some lag ∧ 60 < lag) ∨
        (∃ age_hours, r.backup_status.last_backup_age_hours = some age_hours ∧
           24 < age_hours) ∨
        (∃ oldest_days, r.backup_status.oldest_backup_days = some oldest_days ∧
           30 < oldest_days))) ∧
    generate_recommendations r =
      (if rec1 r ++ rec2 r ++ rec3 r ++ rec4 r = [] then [allClearMsg]
       else rec1 r ++ rec2 r ++ rec3 r ++ rec4 r) := by
  have hg := gen_rec_eq r
  refine ⟨?_, ?_, hg⟩
  · rw [hg]
    split_ifs with h
    · simp
    · exact h
  · rw [hg]
    split_ifs with h
    · exact ⟨fun _ => (fired_nil_iff r).mp h, fun _ => rfl⟩
    · constructor
      · intro heq
        exact (allClear_not_mem r (heq.symm ▸ List.mem_singleton_self allClearMsg)).elim
      · intro hdisj
        exact absurd ((fired_nil_iff r).mpr hdisj) h

end DataValidator

namespace DataValidator

theorem aggregate_skip (f : String → Except Unit TableValidation) (t : String)
    (pre post : List String) (hf : f t = .error ()) :
    aggregateTables f (pre ++ t :: post) = aggregateTables f (pre ++ post) := by
  induction pre with
  | nil => simp only [List.nil_append, aggregateTables, hf]
  | cons a pre ih =>
    cases hfa : f a with
    | ok v => simp [aggregateTables, hfa, ih]
    | error e => simp [aggregateTables, hfa, ih]

theorem aggregate_filter (f : String → Except Unit TableValidation)
    (ts : List String) :
    aggregateTables f ts =
      aggregateTables f (ts.filter fun u => (f u).isOk) := by
  induction ts with
  | nil => rfl
  | cons a ts ih =>
    cases hfa : f a with
    | ok v =>
      simp [List.filter_cons, aggregateTables, hfa, ih, Except.isOk, Except.toBool]
    | error e =>
      cases e
      simp [List.filter_cons, aggregateTables, hfa, ih, Except.isOk, Except.toBool]

theorem agg_len_all_ok (f : String → Except Unit TableValidation)
    (ts : List String) (h : ∀ u ∈ ts, (f u).isOk = true) :
    (aggregateTables f ts).2.2.length = ts.length := by
  induction ts with
  | nil => rfl
  | cons a ts ih =>
    have ha := h a (List.mem_cons_self a ts)
    cases hfa : f a with
    | ok v =>
      simp only [aggregateTables, hfa, List.length_cons]
      rw [ih fun u hu => h u (List.mem_cons_of_mem a hu)]
    | error e =>
      rw [hfa] at ha
      simp [Except.isOk, Except.toBool] at ha

/-- Claim C8 -/
theorem failed_table_excluded (env : ValidatorEnv) (t : String)
    (pre post : List String) (mode : ValidationMode) (tbl : Option String)
    (act : ActionType) (hf : env.table_data t = .error ()) :
    aggregateTables env.table_data (pre ++ t :: post) =
      aggregateTables env.table_data (pre ++ post) ∧
    (run_validation env mode tbl act).results.tables_validated =
      ((tablesToValidate tbl).filter fun u => (env.table_data u).isOk).length ∧
    (run_validation env mode tbl act).results.records_checked =
      (aggregateTables env.table_data
        ((tablesToValidate tbl).filter fun u => (env.table_data u).isOk)).1 ∧
    (run_validation env mode tbl act).results.mismatches_found =
      (aggregateTables env.table_data
        ((tablesToValidate tbl).filter fun u => (env.table_data u).isOk)).2.1 := by
  have hfil := aggregate_filter env.table_data (tablesToValidate tbl)
  have h1 : (run_validation env mode tbl act).results.tables_validated =
      (aggregateTables env.table_data (tablesToValidate tbl)).2.2.length := rfl
  have h2 : (run_validation env mode tbl act).results.records_checked =
      (aggregateTables env.table_data (tablesToValidate tbl)).1 := rfl
  have h3 : (run_validation env mode tbl act).results.mismatches_found =
      (aggregateTables env.table_data (tablesToValidate tbl)).2.1 := rfl
  refine ⟨aggregate_skip env.table_data t pre post hf, ?_, ?_, ?_⟩
  · rw [h1, hfil]
    exact agg_len_all_ok _ _ fun u hu => (List.mem_filter.mp hu).2
  · rw [h2, hfil]
  · rw [h3, hfil]

/-- Witness for C8. -/
theorem failed_table_excluded_wit :
    cxEnvC.table_data "dr-sentinel-table" = .error () ∧
    (aggregateTables cxEnvC.table_data (["inventory"] ++ "dr-sentinel-table" :: []) =
       aggregateTables cxEnvC.table_data (["inventory"] ++ []) ∧
     (run_validation cxEnvC .full none .validate).results.tables_validated =
       ((tablesToValidate none).filter fun u => (cxEnvC.table_data u).isOk).length ∧
     (run_validation cxEnvC .full none .validate).results.records_checked =
       (aggregateTables cxEnvC.table_data
         ((tablesToValidate none).filter fun u => (cxEnvC.table_data u).isOk)).1 ∧
     (run_validation cxEnvC .full none .validate).results.mismatches_found =
       (aggregateTables cxEnvC.table_data
         ((tablesToValidate none).filter fun u => (cxEnvC.table_data u).isOk)).2.1) :=
  ⟨rfl,
   failed_table_excluded cxEnvC "dr-sentinel-table" ["inventory"] [] .full none .validate
     rfl⟩

/-- Claim C10 -/
theorem sync_count (v : TableValidation) (hm : 0 < mismatchCount v) :
    sync_missing_items v =
      (if v.dr_count < v.primary_count then v.primary_count - v.dr_count else 0) ∧
    (v.primary_count ≤ v.dr_count → sync_missing_items v = 0) := by
  constructor
  · rfl
  · intro h
    unfold sync_missing_items
    rw [if_neg (by omega)]

/-- Witness for C10. -/
theorem sync_count_wit :
    0 < mismatchCount vSync ∧
    (sync_missing_items vSync =
       (if vSync.dr_count < vSync.primary_count then
          vSync.primary_count - vSync.dr_count else 0) ∧
     (vSync.primary_count ≤ vSync.dr_count → sync_missing_items vSync = 0)) :=
  ⟨by decide, sync_count vSync (by decide)⟩

end DataValidator
